import Mathlib

/-!
Verification of the InfoAI Blueprint Validator and Prompt Compilers.

The repository has two compilers over the same blueprint documents:
* the backend compiler `src/backend/compiler/prompt_compiler.py`
  (`compile_prompt`, `_compile_sections`, `validate_blueprint`), and
* a simplified inline compiler `src/api/index.py` (`compile_prompt`),
  modelled here in namespace `Api`.

Blueprint documents are JSON objects.  Following the input contract
(spec section 6: "the Blueprint shape in section 3, exactly"), string
fields are modelled as `Option String` (absent key = `none`) and list
fields as `Option (List String)`; the `sections` field may additionally
be a present non-sequence value (`SectionsField.notArr`), which the
validator's `isinstance(..., list)` check inspects.  Python truthiness
(`if blueprint.get(k)`) is modelled explicitly: an absent key, the empty
string and the empty list are falsy.
-/

set_option maxRecDepth 100000

namespace InfoAI

/-- `strContains big small` : `small` occurs as a contiguous substring of `big`
(Python's `small in big`). -/
def strContains (big small : String) : Prop :=
  small.data <:+: big.data

instance (big small : String) : Decidable (strContains big small) :=
  inferInstanceAs (Decidable (small.data <:+: big.data))

/-- Python `str.capitalize`: first character upper-cased, the rest lower-cased. -/
def pyCapitalize (s : String) : String :=
  match s.data with
  | [] => ""
  | c :: cs => String.mk (c.toUpper :: cs.map Char.toLower)

/-- Python `str.upper`: every character upper-cased. -/
def pyUpper (s : String) : String :=
  String.mk (s.data.map Char.toUpper)

/-- Python `str.strip` on a character list: drop leading and trailing whitespace. -/
def pyStripL (l : List Char) : List Char :=
  ((l.dropWhile Char.isWhitespace).reverse.dropWhile Char.isWhitespace).reverse

/-- Python `str.strip`. -/
def pyStrip (s : String) : String :=
  String.mk (pyStripL s.data)

/-- Python truthiness of an optional string field: absent or `""` is falsy. -/
def truthyS : Option String → Bool
  | none => false
  | some s => !(s == "")

/-- Python truthiness of an optional list field: absent or `[]` is falsy. -/
def truthyL : Option (List String) → Bool
  | none => false
  | some l => !l.isEmpty

/-- Python `sep.join(l)`. -/
def pyJoin (sep : String) : List String → String
  | [] => ""
  | [x] => x
  | x :: y :: rest => x ++ sep ++ pyJoin sep (y :: rest)

/-- Python `repr` of a list of strings, as f-strings interpolate it
(`"['a', 'b']"`); used verbatim in the validator's error messages. -/
def pyListRepr (l : List String) : String :=
  "[" ++ pyJoin ", " (l.map fun s => "'" ++ s ++ "'") ++ "]"

/-- One element of a blueprint's `sections` array (spec section 3 "Section").
Every payload key is optional; the compilers read them with `.get(key, default)`. -/
structure BSection where
  id : Option String := none
  type : Option String := none
  heading : Option String := none
  emphasis : Option String := none
  visual_metaphor : Option String := none
  metaphor_direction : Option String := none
  before : Option (List String) := none
  after : Option (List String) := none
  findings : Option (List String) := none
  actions : Option (List String) := none
  items : Option (List String) := none
  points : Option (List String) := none
deriving DecidableEq

/-- The value stored under the `sections` key: a JSON array of sections, or a
present value of any non-sequence type (rejected by `isinstance(..., list)`). -/
inductive SectionsField where
  | arr (l : List BSection)
  | notArr
deriving DecidableEq

/-- A blueprint document (spec section 3).  `none` models an absent key. -/
structure Blueprint where
  title : Option String := none
  subtitle : Option String := none
  summary : Option String := none
  tone : Option String := none
  creativity : Option String := none
  layout : Option String := none
  palette : Option String := none
  custom_colors : Option (List String) := none
  sections : Option SectionsField := none
deriving DecidableEq

/-- One entry of `PALETTE_DEFINITIONS`. -/
structure PaletteInfo where
  primary : String
  secondary : String
  accent : String
  background : String
  dark : String
  description : String
deriving DecidableEq

def tealPalette : PaletteInfo :=
  { primary := "#0d9488", secondary := "#14b8a6", accent := "#2dd4bf",
    background := "#f0fdfa", dark := "#134e4a",
    description := "teal/cyan/blue-green professional palette" }

def warmPalette : PaletteInfo :=
  { primary := "#ea580c", secondary := "#f97316", accent := "#fb923c",
    background := "#fff7ed", dark := "#9a3412",
    description := "warm orange/amber professional palette" }

def monoPalette : PaletteInfo :=
  { primary := "#374151", secondary := "#6b7280", accent := "#9ca3af",
    background := "#f9fafb", dark := "#111827",
    description := "monochrome grey professional palette" }

/-- `PALETTE_DEFINITIONS` as a lookup (dict `.get`): note there is no entry
for `"custom"`. -/
def PALETTE_DEFINITIONS : String → Option PaletteInfo := fun k =>
  if k == "teal" then some tealPalette
  else if k == "warm" then some warmPalette
  else if k == "mono" then some monoPalette
  else none

def layoutBeforeAfterRecs : String :=
  "\nLayout: BEFORE/AFTER with RECOMMENDATIONS structure\n- Left side (40%): BEFORE state - show problems, chaos, issues with warning visual cues\n- Right side (40%): AFTER state - show solutions, order, improvements with success visual cues\n- Bottom section (20%): RECOMMENDATIONS callout box with check icons and action items\n- Use clear visual separation between before/after with a dividing line or gradient transition\n- Include small labels \"BEFORE\" and \"AFTER\" above respective sections\n"

def layoutSplitTwoColumn : String :=
  "\nLayout: TWO-COLUMN SPLIT structure\n- Left column (50%): Primary information, findings, or current state\n- Right column (50%): Secondary information, actions, or recommendations\n- Consistent vertical alignment between columns\n- Use visual connectors or arrows to show relationships\n"

def layoutProcessFlow : String :=
  "\nLayout: PROCESS FLOW structure\n- Horizontal or vertical flow from start to end\n- Each step in a distinct container with number or icon\n- Connecting arrows or lines between steps\n- Progressive visual treatment (lighter to darker, or left to right)\n"

def layoutSummaryGrid : String :=
  "\nLayout: SUMMARY GRID structure\n- 2x2 or 2x3 grid of equal-sized sections\n- Each section has icon, heading, and bullet points\n- Consistent styling across all grid cells\n- Clear grid lines or spacing for visual separation\n"

/-- `LAYOUT_INSTRUCTIONS` as a lookup. -/
def LAYOUT_INSTRUCTIONS : String → Option String := fun k =>
  if k == "before_after_with_recommendations" then some layoutBeforeAfterRecs
  else if k == "split_two_column" then some layoutSplitTwoColumn
  else if k == "process_flow" then some layoutProcessFlow
  else if k == "summary_grid" then some layoutSummaryGrid
  else none

/-- One entry of `CREATIVITY_MODIFIERS`. -/
structure CreativityMod where
  style : String
  metaphors : String
  restrictions : String
deriving DecidableEq

def creativityNone : CreativityMod :=
  { style := "literal, documentary, factual",
    metaphors := "NO metaphors or symbolic imagery. Use only literal representations.",
    restrictions := "Strictly informational. No artistic flourishes." }

def creativitySubtle : CreativityMod :=
  { style := "professional with minor symbolic touches",
    metaphors := "Use subtle, tasteful symbolism. Minor metaphorical elements that enhance understanding.",
    restrictions := "Keep metaphors minimal and clearly business-appropriate." }

def creativityModerate : CreativityMod :=
  { style := "storytelling-oriented with clear metaphors",
    metaphors := "Include clear visual metaphors and illustrative storytelling elements. Transform concepts into relatable visual narratives.",
    restrictions := "Balance creativity with professionalism. Metaphors should enhance, not obscure meaning." }

def creativityHigh : CreativityMod :=
  { style := "highly metaphorical, stylized storytelling",
    metaphors := "Strong metaphorical scenes with artistic interpretation. Transform data into compelling visual stories.",
    restrictions := "EXPERIMENTAL: Maintain executive clarity despite creative styling. Avoid gimmicks." }

/-- `CREATIVITY_MODIFIERS` as a lookup. -/
def CREATIVITY_MODIFIERS : String → Option CreativityMod := fun k =>
  if k == "none" then some creativityNone
  else if k == "subtle" then some creativitySubtle
  else if k == "moderate" then some creativityModerate
  else if k == "high" then some creativityHigh
  else none

def emphasisLow : String := "Small size, subtle positioning, supporting role"
def emphasisMedium : String := "Standard size, balanced positioning, equal visual weight"
def emphasisHigh : String := "Large size, prominent positioning, visual focal point with label overlay"

/-- `EMPHASIS_INSTRUCTIONS` as a lookup. -/
def EMPHASIS_INSTRUCTIONS : String → Option String := fun k =>
  if k == "low" then some emphasisLow
  else if k == "medium" then some emphasisMedium
  else if k == "high" then some emphasisHigh
  else none

/-! `SECTION_TEMPLATES`, one function per entry.  Python's single-pass
`str.format` on a constant template is concatenation of the template's
fixed scaffolding with the substituted values, transcribed byte-for-byte
(including the template's leading/trailing newlines and trailing spaces). -/

def sectionTemplateBeforeAfter (heading before_visual before_items after_visual after_items metaphor_before metaphor_after emphasis : String) : String :=
  "\n" ++ heading ++ " Section (Before/After Visual Comparison):\n  ⚠️ USE ILLUSTRATIONS NOT TEXT for this section\n  \n  LEFT (BEFORE) - Create an ILLUSTRATION showing:\n    - Visual scene depicting: " ++ before_visual ++ "\n    - Single word label: \"BEFORE\"\n    - Show through imagery: " ++ before_items ++ "\n    - Visual mood: Chaotic, messy, problematic (use visual cues like tangled elements, warning colors)\n    " ++ metaphor_before ++ "\n  \n  RIGHT (AFTER) - Create an ILLUSTRATION showing:\n    - Visual scene depicting: " ++ after_visual ++ "\n    - Single word label: \"AFTER\"  \n    - Show through imagery: " ++ after_items ++ "\n    - Visual mood: Organized, clean, resolved (use visual cues like neat arrangements, success colors)\n    " ++ metaphor_after ++ "\n  \n  Emphasis: " ++ emphasis ++ "\n  DO NOT write out the items as text - DRAW them as illustrations\n"

def sectionTemplateFindingsActions (heading findings_items actions_items metaphor_line emphasis : String) : String :=
  "\n" ++ heading ++ " Section (Visual Findings → Actions):\n  ⚠️ USE ICONS AND SYMBOLS NOT TEXT\n  \n  FINDINGS (left/top) - Show with ICONS:\n    - Use magnifying glass or observation icons\n    - Represent each finding with a simple icon, NOT text: " ++ findings_items ++ "\n  \n  ACTIONS (right/bottom) - Show with ICONS:\n    - Use checkmark or tool icons\n    - Represent each action with a simple icon, NOT text: " ++ actions_items ++ "\n  \n  " ++ metaphor_line ++ "\n  Emphasis: " ++ emphasis ++ "\n  Maximum 1-2 word labels per icon\n"

def sectionTemplateRecommendations (heading items_formatted metaphor_line emphasis emphasis_instruction : String) : String :=
  "\n" ++ heading ++ " Section (Recommendations - Visual Callout):\n  ⚠️ USE CHECKMARK ICONS NOT BULLET TEXT\n  \n  Style: Highlighted box with ICONS\n  - Use large checkmark or lightbulb icons\n  - Each recommendation shown as an ICON with 1-2 word label max:\n" ++ items_formatted ++ "\n  \n  " ++ metaphor_line ++ "\n  Emphasis: " ++ emphasis ++ " - " ++ emphasis_instruction ++ "\n  DO NOT write full sentences - use icons with tiny labels only\n"

def sectionTemplateOutcome (heading points_formatted metaphor_line emphasis : String) : String :=
  "\n" ++ heading ++ " Section (Outcome - Visual Summary):\n  ⚠️ USE SUCCESS ICONS AND IMAGERY\n  \n  Style: Trophy, star, or success imagery\n  - Show outcomes through visual symbols, NOT text paragraphs\n  - Each point as an icon with 1-word label:\n" ++ points_formatted ++ "\n  \n  " ++ metaphor_line ++ "\n  Emphasis: " ++ emphasis ++ "\n"

def sectionTemplateMetric (heading points_formatted metaphor_line emphasis : String) : String :=
  "\n" ++ heading ++ " Section (Metrics - Visual Data):\n  ⚠️ USE CHARTS, GAUGES, OR LARGE NUMBERS\n  \n  Style: Data visualization with minimal text\n  - Use pie charts, bar charts, or gauge icons\n  - Numbers displayed large with single-word labels\n  - Points to visualize:\n" ++ points_formatted ++ "\n  \n  " ++ metaphor_line ++ "\n  Emphasis: " ++ emphasis ++ "\n"

/-- `"\n    - ".join([""] + items) if items else placeholder` from
`_compile_sections` (before/after/findings/actions items). -/
def dashJoin (items : List String) (placeholder : String) : String :=
  if !items.isEmpty then pyJoin "\n    - " ("" :: items) else placeholder

/-- `"\n".join([f"    • {x}" for x in l]) if l else placeholder` from
`_compile_sections` (recommendations items, outcome/metric points). -/
def bulletJoin (l : List String) (placeholder : String) : String :=
  if !l.isEmpty then pyJoin "\n" (l.map fun x => "    • " ++ x) else placeholder

/-- `emphasis = section.get("emphasis", "medium")`. -/
def emphasisOf (s : BSection) : String := s.emphasis.getD "medium"

/-- `emphasis_inst = EMPHASIS_INSTRUCTIONS.get(emphasis, EMPHASIS_INSTRUCTIONS["medium"])`. -/
def emphasis_instOf (s : BSection) : String :=
  (EMPHASIS_INSTRUCTIONS (emphasisOf s)).getD emphasisMedium

/-- The per-section body of `_compile_sections` (prompt_compiler.py lines
303-387): one iteration of the loop, producing `section_text` for the
1-based index `i`.  The source also reads `metaphor_direction` at line 311
but never uses it. -/
def renderSection (creativity : String) (i : Nat) (s : BSection) : String :=
  let section_type := s.type.getD "outcome"
  let heading := s.heading.getD ("Section " ++ toString i)
  let emphasis := emphasisOf s
  let emphasis_inst := emphasis_instOf s
  let visual_metaphor := s.visual_metaphor.getD ""
  if section_type == "before_after" then
    let before_items := s.before.getD []
    let after_items := s.after.getD []
    let metaphor_before :=
      if visual_metaphor != "" && creativity != "none" then
        "- Visual Metaphor: " ++ (visual_metaphor.splitOn " vs ").headD visual_metaphor
      else ""
    let metaphor_after :=
      if visual_metaphor != "" && creativity != "none" then
        "- Visual Metaphor: " ++ ((visual_metaphor.splitOn " vs ").get? 1).getD "organized, resolved state"
      else ""
    sectionTemplateBeforeAfter heading
      "Chaotic, problematic state illustration" (dashJoin before_items "Problem indicators")
      "Organized, resolved state illustration" (dashJoin after_items "Solution indicators")
      metaphor_before metaphor_after
      (pyUpper emphasis ++ " - " ++ emphasis_inst)
  else if section_type == "findings_actions" then
    let findings_items := s.findings.getD []
    let actions_items := s.actions.getD []
    let metaphor_line :=
      if visual_metaphor != "" && creativity != "none" then "Visual Metaphor: " ++ visual_metaphor else ""
    sectionTemplateFindingsActions heading
      (dashJoin findings_items "Key findings") (dashJoin actions_items "Actions taken")
      metaphor_line (pyUpper emphasis ++ " - " ++ emphasis_inst)
  else if section_type == "recommendations" then
    let items := s.items.getD []
    let metaphor_line :=
      if visual_metaphor != "" && creativity != "none" then "Visual Metaphor: " ++ visual_metaphor else ""
    sectionTemplateRecommendations heading
      (bulletJoin items "    • Key recommendations") metaphor_line (pyUpper emphasis) emphasis_inst
  else if section_type == "outcome" then
    let points := s.points.getD []
    let metaphor_line :=
      if visual_metaphor != "" && creativity != "none" then "Visual Metaphor: " ++ visual_metaphor else ""
    sectionTemplateOutcome heading
      (bulletJoin points "    • Key outcomes") metaphor_line (pyUpper emphasis ++ " - " ++ emphasis_inst)
  else if section_type == "metric" then
    let points := s.points.getD []
    let metaphor_line :=
      if visual_metaphor != "" && creativity != "none" then "Visual Metaphor: " ++ visual_metaphor else ""
    sectionTemplateMetric heading
      (bulletJoin points "    • Key metrics") metaphor_line (pyUpper emphasis ++ " - " ++ emphasis_inst)
  else
    "\nSection " ++ toString i ++ ": " ++ heading ++ "\n  Type: " ++ section_type ++ "\n  Emphasis: " ++ emphasis ++ "\n"

/-- The loop of `_compile_sections`, accumulating `result_parts` from the
1-based index `i`. -/
def compileSectionsFrom (creativity : String) : Nat → List BSection → List String
  | _, [] => []
  | i, s :: rest =>
    ("--- SECTION " ++ toString i ++ " ---\n" ++ renderSection creativity i s)
      :: compileSectionsFrom creativity (i + 1) rest

/-- `_compile_sections(sections, creativity)`. -/
def compile_sections (sections : List BSection) (creativity : String) : String :=
  pyJoin "\n" (compileSectionsFrom creativity 1 sections)

/-! Top-level field extraction of `compile_prompt` (prompt_compiler.py lines
195-219), one definition per local of the source. -/

def titleOf (b : Blueprint) : String := b.title.getD "Untitled"
def subtitleOf (b : Blueprint) : String := b.subtitle.getD ""
def toneOf (b : Blueprint) : String := b.tone.getD "professional"
def creativityOf (b : Blueprint) : String := b.creativity.getD "subtle"
def layoutOf (b : Blueprint) : String := b.layout.getD "before_after_with_recommendations"
def paletteOf (b : Blueprint) : String := b.palette.getD "teal"

/-- `blueprint.get("sections", [])`, for the already-validated case where the
value, if present, is an array. -/
def sectionsOf (b : Blueprint) : List BSection :=
  match b.sections with
  | some (SectionsField.arr l) => l
  | _ => []

/-- `PALETTE_DEFINITIONS.get(palette, PALETTE_DEFINITIONS["teal"])`. -/
def palette_info (b : Blueprint) : PaletteInfo :=
  (PALETTE_DEFINITIONS (paletteOf b)).getD tealPalette

/-- `palette_desc`: the custom synthesis when `palette == "custom"` and
`custom_colors` is truthy, else the table entry's description. -/
def palette_desc (b : Blueprint) : String :=
  if paletteOf b == "custom" && truthyL b.custom_colors then
    "Custom palette: " ++ pyJoin ", " (b.custom_colors.getD [])
  else (palette_info b).description

/-- `CREATIVITY_MODIFIERS.get(creativity, CREATIVITY_MODIFIERS["subtle"])`. -/
def creativity_mod (b : Blueprint) : CreativityMod :=
  (CREATIVITY_MODIFIERS (creativityOf b)).getD creativitySubtle

/-- `LAYOUT_INSTRUCTIONS.get(layout, LAYOUT_INSTRUCTIONS["before_after_with_recommendations"])`. -/
def layout_inst (b : Blueprint) : String :=
  (LAYOUT_INSTRUCTIONS (layoutOf b)).getD layoutBeforeAfterRecs

/-! The main f-string of `compile_prompt` (lines 222-292), cut at each
interpolation point.  `promptP1` runs to `Title: "`, `promptP16` runs from
the end of the sections text to the final `signatures`; the f-string's
trailing newline is appended separately in `compile_prompt`. -/

def promptP1 : String :=
  "Create a professional, executive-grade infographic image.\n\n=== CRITICAL TEXT RENDERING RULES ===\n⚠️ MINIMIZE ALL TEXT IN THE IMAGE - This is the most important rule!\n- Use ICONS, SYMBOLS, and ILLUSTRATIONS instead of text wherever possible\n- Maximum 3-5 words per label or heading\n- NO paragraphs or sentences in the image\n- NO bullet point text lists - use visual icons with single-word labels\n- Title and subtitle should be the ONLY full text elements\n- Replace text descriptions with visual metaphors and illustrations\n- If you must include text, keep it to SHORT labels only (1-3 words max)\n\n=== HEADER ===\nTitle: \""
def promptP2 : String := "\"\nSubtitle: \""
def promptP3 : String :=
  "\"\n(These are the ONLY longer text elements allowed)\n\n=== STYLE & TONE ===\n- Tone: "
def promptP4 : String := " consulting/business infographic\n- Creativity Level: "
def promptP5 : String := " - "
def promptP6 : String := "\n- Metaphor Guidelines: "
def promptP7 : String := "\n- Restrictions: "
def promptP8 : String := "\n\n=== COLOR PALETTE ===\n- Palette: "
def promptP9 : String := "\n- Primary Color: "
def promptP10 : String := "\n- Secondary Color: "
def promptP11 : String := "\n- Accent Color: "
def promptP12 : String := "\n- Background: "
def promptP13 : String := "\n- Dark/Text Color: "
def promptP14 : String :=
  "\n\n=== TYPOGRAPHY ===\n- Font Style: Clean, modern sans-serif\n- Title: Bold, large, prominent at top\n- ALL OTHER TEXT: Keep extremely minimal - use icons instead\n- NO body text paragraphs\n- NO decorative or script fonts\n\n=== LAYOUT ===\n"
def promptP15 : String :=
  "\n\n=== VISUAL CONTENT APPROACH ===\nFor each section below, create VISUAL REPRESENTATIONS not text:\n- Use illustrations, icons, and symbols to convey meaning\n- Show concepts through imagery (e.g., tangled wires vs organized rack)\n- Use color coding and visual hierarchy\n- Add simple 1-2 word labels ONLY where absolutely necessary\n\n"
def promptP16 : String :=
  "\n\n=== TECHNICAL REQUIREMENTS ===\n- Output: Single high-resolution PNG image\n- Dimensions: 3000x2000 pixels (landscape)\n- Background: Clean, solid from palette\n- Margins: Adequate whitespace\n\n=== DO's ===\n- Use ICONS and ILLUSTRATIONS as primary communication\n- Use visual metaphors (before/after imagery)\n- Use color to differentiate sections\n- Keep any text to 1-3 word labels maximum\n- Create clear visual flow without relying on text\n\n=== DON'Ts - CRITICAL ===\n- ❌ NO paragraphs or sentences\n- ❌ NO bullet point lists with text\n- ❌ NO text longer than 3 words (except title/subtitle)\n- ❌ NO raw text dumps or walls of text\n- ❌ NO spelling out full descriptions - use visuals instead\n- ❌ DO NOT include any watermarks or signatures"

/-- Concatenation of a list of strings (in order). -/
def strConcat (l : List String) : String :=
  l.foldr (fun a b => a ++ b) ""

/-- The interpolation pieces of the main f-string, in order: constant
scaffolding alternating with the interpolated values. -/
def promptPieces (b : Blueprint) : List String :=
  [promptP1, titleOf b, promptP2, subtitleOf b, promptP3,
   pyCapitalize (toneOf b), promptP4, pyUpper (creativityOf b), promptP5,
   (creativity_mod b).style, promptP6, (creativity_mod b).metaphors, promptP7,
   (creativity_mod b).restrictions, promptP8, palette_desc b, promptP9,
   (palette_info b).primary, promptP10, (palette_info b).secondary, promptP11,
   (palette_info b).accent, promptP12, (palette_info b).background, promptP13,
   (palette_info b).dark, promptP14, layout_inst b, promptP15,
   compile_sections (sectionsOf b) (creativityOf b), promptP16]

/-- The assembled prompt before the final `"""` newline and `.strip()`. -/
def promptCore (b : Blueprint) : String :=
  strConcat (promptPieces b)

/-- `compile_prompt(blueprint)` (prompt_compiler.py lines 183-294).  On a
document whose `sections` value is present but not a sequence the Python
code raises while iterating it, modelled as `none`; otherwise the prompt
f-string (which ends in a newline) is built and `.strip()`ped. -/
def compile_prompt (b : Blueprint) : Option String :=
  match b.sections with
  | some SectionsField.notArr => none
  | _ => some (pyStrip (promptCore b ++ "\n"))

/-! The validator (prompt_compiler.py lines 394-445). -/

def valid_types : List String :=
  ["before_after", "findings_actions", "recommendations", "outcome", "metric"]
def valid_layouts : List String :=
  ["before_after_with_recommendations", "split_two_column", "process_flow", "summary_grid"]
def valid_creativity : List String := ["none", "subtle", "moderate", "high"]
def valid_palette : List String := ["teal", "warm", "mono", "custom"]
def valid_tone : List String := ["professional", "executive", "technical"]
def valid_emphasis : List String := ["low", "medium", "high"]

/-- `f"Invalid {field}: {value}. Must be one of {allowed}"`. -/
def invalidMsg (field value : String) (allowed : List String) : String :=
  "Invalid " ++ field ++ ": " ++ value ++ ". Must be one of " ++ pyListRepr allowed

/-- The per-section loop of `validate_blueprint` (lines 435-443); `i` is the
1-based index interpolated into the messages. -/
def validateSections : Nat → List BSection → Bool × String
  | _, [] => (true, "")
  | i, s :: rest =>
    if s.type.isNone then
      (false, "Section " ++ toString i ++ " missing 'type' field")
    else if !(valid_types.contains (s.type.getD "")) then
      (false, "Section " ++ toString i ++ " has invalid type: " ++ s.type.getD "" ++
        ". Must be one of " ++ pyListRepr valid_types)
    else if s.heading.isNone then
      (false, "Section " ++ toString i ++ " missing 'heading' field")
    else if truthyS s.emphasis && !(valid_emphasis.contains (s.emphasis.getD "")) then
      (false, "Section " ++ toString i ++ " has invalid emphasis: " ++ s.emphasis.getD "" ++
        ". Must be one of " ++ pyListRepr valid_emphasis)
    else validateSections (i + 1) rest

/-- One top-level enum check of `validate_blueprint` (lines 419-432):
`if blueprint.get(field) and blueprint[field] not in allowed: return the
error; else continue with the remaining checks`. -/
def enumCheck (field : String) (v : Option String) (allowed : List String)
    (next : Bool × String) : Bool × String :=
  if truthyS v && !(allowed.contains (v.getD "")) then
    (false, invalidMsg field (v.getD "") allowed)
  else next

/-- `validate_blueprint(blueprint) -> (is_valid, error_message)`. -/
def validate_blueprint (b : Blueprint) : Bool × String :=
  if b.title.isNone then (false, "Missing required field: title")
  else if b.sections.isNone then (false, "Missing required field: sections")
  else match b.sections with
  | some (SectionsField.arr secs) =>
    if secs.isEmpty then (false, "'sections' must have at least one section")
    else
      enumCheck "layout" b.layout valid_layouts
        (enumCheck "creativity" b.creativity valid_creativity
          (enumCheck "palette" b.palette valid_palette
            (enumCheck "tone" b.tone valid_tone
              (validateSections 1 secs))))
  | _ => (false, "'sections' must be an array")

/-! The simplified inline compiler of `src/api/index.py` (`compile_prompt`,
lines 46-113). -/

namespace Api

/-- `palette_colors` dict of the inline compiler. -/
def palette_colors : String → Option String := fun k =>
  if k == "teal" then some "#0d9488"
  else if k == "warm" then some "#ea580c"
  else if k == "mono" then some "#374151"
  else none

/-- One iteration of the inline compiler's sections loop (index.py lines
62-89): the text appended to `sections_text` for the 1-based index `i`. -/
def sectionText (i : Nat) (s : BSection) : String :=
  let heading := s.heading.getD ("Section " ++ toString i)
  let section_type := s.type.getD "outcome"
  let metaphor := s.visual_metaphor.getD ""
  if section_type == "before_after" then
    let before := s.before.getD []
    let after := s.after.getD []
    "\nSection " ++ toString i ++ ": " ++ heading ++ " (Before/After)\n- LEFT (BEFORE): Show chaotic state - " ++
      (if !before.isEmpty then pyJoin ", " (before.take 2) else "problems") ++
      "\n- RIGHT (AFTER): Show organized state - " ++
      (if !after.isEmpty then pyJoin ", " (after.take 2) else "solutions") ++
      "\n- Visual metaphor: " ++ metaphor ++ "\n"
  else if section_type == "recommendations" then
    let items := s.items.getD []
    "\nSection " ++ toString i ++ ": " ++ heading ++ " (Recommendations)\n- Show as checkmark icons with 1-word labels\n- Items: " ++
      (if !items.isEmpty then pyJoin ", " (items.take 3) else "key recommendations") ++ "\n"
  else
    let points := s.points.getD (s.findings.getD (s.actions.getD []))
    "\nSection " ++ toString i ++ ": " ++ heading ++ "\n- Show as icons/illustrations\n- Key points: " ++
      (if !points.isEmpty then pyJoin ", " (points.take 3) else "key information") ++ "\n"

/-- The accumulated `sections_text` from the 1-based index `i`. -/
def sectionsTextFrom : Nat → List BSection → String
  | _, [] => ""
  | i, s :: rest => sectionText i s ++ sectionsTextFrom (i + 1) rest

/-- The inline `compile_prompt(blueprint)` of index.py.  As in the backend
model, a present non-sequence `sections` value (over which the Python loop
would raise) is `none`.  The inline version applies no `.strip()`. -/
def compile_prompt (b : Blueprint) : Option String :=
  match b.sections with
  | some SectionsField.notArr => none
  | _ =>
    some ("Create a professional infographic image.\n\nCRITICAL: MINIMIZE TEXT - Use icons and illustrations instead of words!\n\nTitle: \"" ++
      b.title.getD "Untitled" ++ "\"\nSubtitle: \"" ++ b.subtitle.getD "" ++
      "\"\n\nStyle:\n- Layout: " ++ b.layout.getD "before_after_with_recommendations" ++
      "\n- Creativity: " ++ b.creativity.getD "moderate" ++
      "\n- Color: " ++ (palette_colors (b.palette.getD "teal")).getD "#0d9488" ++
      "\n- Typography: Clean sans-serif, minimal text\n\nSections:\n" ++
      sectionsTextFrom 1 (sectionsOf b) ++
      "\n\nRULES:\n- Maximum 1-3 words per label\n- NO paragraphs or sentences\n- Use icons, illustrations, visual metaphors\n- Title and subtitle are the only full text\n")

end Api

/-! Blueprint transformations used to state relational properties. -/

/-- Drop a section's `visual_metaphor` (used to state what `creativity=none`
suppresses). -/
def eraseMetaphor (s : BSection) : BSection :=
  { s with visual_metaphor := none }

/-- Cut a section's payload lists to what the inline compiler's truncation
policy can ever show: `before`/`after` to their first 2 items,
`items`/`points`/`findings`/`actions` to their first 3. -/
def truncateSection (s : BSection) : BSection :=
  { s with
    before := s.before.map (List.take 2),
    after := s.after.map (List.take 2),
    items := s.items.map (List.take 3),
    points := s.points.map (List.take 3),
    findings := s.findings.map (List.take 3),
    actions := s.actions.map (List.take 3) }

/-- `truncateSection` over a whole document. -/
def truncateBlueprint (b : Blueprint) : Blueprint :=
  { b with
    sections := b.sections.map fun
      | SectionsField.arr l => SectionsField.arr (l.map truncateSection)
      | SectionsField.notArr => SectionsField.notArr }

/-- Replace a present enum-field value `some ""` by an absent one. -/
def clearEmpty : Option String → Option String
  | none => none
  | some s => if s == "" then none else some s

/-- Remove all present-but-empty enum fields (`layout`, `creativity`,
`palette`, `tone`, each section's `emphasis`) from a document. -/
def clearEmptyEnums (b : Blueprint) : Blueprint :=
  { b with
    layout := clearEmpty b.layout,
    creativity := clearEmpty b.creativity,
    palette := clearEmpty b.palette,
    tone := clearEmpty b.tone,
    sections := b.sections.map fun
      | SectionsField.arr l => SectionsField.arr (l.map fun s => { s with emphasis := clearEmpty s.emphasis })
      | SectionsField.notArr => SectionsField.notArr }

/-- Replace every present section heading by the empty string. -/
def blankHeadings (b : Blueprint) : Blueprint :=
  { b with
    sections := b.sections.map fun
      | SectionsField.arr l => SectionsField.arr (l.map fun s => { s with heading := s.heading.map fun _ => "" })
      | SectionsField.notArr => SectionsField.notArr }

/-! Concrete documents used by counterexamples and witnesses. -/

/-- A minimal valid section. -/
def exOutcomeSection : BSection := { type := some "outcome", heading := some "Heading" }

/-- A before_after section with five before items. -/
def exFiveBefore : BSection :=
  { type := some "before_after", heading := some "Rack",
    before := some ["b-one", "b-two", "b-three", "b-four", "b-five"] }

/-- An outcome section with legacy `findings` but no `points`. -/
def exOutcomeFindings : BSection :=
  { type := some "outcome", heading := some "Results", findings := some ["FINDING-X"] }

/-- A document holding the five-before-items section. -/
def exFiveBeforeDoc : Blueprint :=
  { title := some "T", sections := some (SectionsField.arr [exFiveBefore]) }

/-- A before_after section carrying a `" vs "`-separated visual metaphor. -/
def exMetaphorSection : BSection :=
  { type := some "before_after", heading := some "H",
    before := some ["tangled cables"], visual_metaphor := some "knot vs shelf" }

/-- A valid blueprint, `creativity=none`, no metaphors anywhere. -/
def exCreativityNone : Blueprint :=
  { title := some "T", creativity := some "none",
    sections := some (SectionsField.arr [exOutcomeSection]) }

/-- Identical to `exCreativityNone` except `creativity=moderate`. -/
def exCreativityModerate : Blueprint :=
  { title := some "T", creativity := some "moderate",
    sections := some (SectionsField.arr [exOutcomeSection]) }

/-- A valid blueprint with title and subtitle. -/
def exTitled : Blueprint :=
  { title := some "Network Overhaul", subtitle := some "From Chaos",
    sections := some (SectionsField.arr [exOutcomeSection]) }

/-- A document whose single section has a present but empty heading. -/
def exEmptyHeading : Blueprint :=
  { title := some "T",
    sections := some (SectionsField.arr [{ type := some "outcome", heading := some "" }]) }

/-- A document whose `sections` value is present but not a sequence. -/
def exNotArr : Blueprint :=
  { title := some "T", sections := some SectionsField.notArr }

/-- A custom-palette blueprint with two custom colors. -/
def exCustom : Blueprint :=
  { title := some "T", palette := some "custom",
    custom_colors := some ["#111", "#222"],
    sections := some (SectionsField.arr [exOutcomeSection]) }

/-- A custom-palette blueprint whose single custom color embeds the teal
description text. -/
def exCustomAdv : Blueprint :=
  { title := some "T", palette := some "custom",
    custom_colors := some ["teal/cyan/blue-green professional palette"],
    sections := some (SectionsField.arr [exOutcomeSection]) }

/-- A custom-palette blueprint without custom colors. -/
def exCustomNoColors : Blueprint :=
  { title := some "T", palette := some "custom",
    sections := some (SectionsField.arr [exOutcomeSection]) }

/-- A valid blueprint whose `tone` is present but empty. -/
def exEmptyTone : Blueprint :=
  { title := some "T", tone := some "",
    sections := some (SectionsField.arr [exOutcomeSection]) }

/-! Generic lemmas about `strContains` and `pyStrip`. -/

theorem strContains_appL {small : String} (s t : String) (h : strContains s small) :
    strContains (s ++ t) small := by
  unfold strContains at h ⊢
  rw [String.data_append]
  exact h.trans ⟨[], t.data, by simp⟩

theorem strContains_appR {small : String} (s t : String) (h : strContains t small) :
    strContains (s ++ t) small := by
  unfold strContains at h ⊢
  rw [String.data_append]
  exact h.trans ⟨s.data, [], by simp⟩

/-- A substring of `a ++ b` occurs in `a ++ (b ++ c)`. -/
theorem strContains_app2 {small a b : String} (c : String)
    (h : strContains (a ++ b) small) : strContains (a ++ (b ++ c)) small := by
  unfold strContains at h ⊢
  rw [String.data_append] at h
  rw [String.data_append, String.data_append]
  exact h.trans ⟨[], c.data, by simp⟩

theorem strContains_refl (s : String) : strContains s s :=
  ⟨[], [], by simp⟩

theorem head?_data_append_left {a : String} (t : String) {c : Char}
    (h : a.data.head? = some c) : (a ++ t).data.head? = some c := by
  rw [String.data_append, List.head?_append, h]
  rfl

theorem getLast?_data_append_right {t : String} (a : String) {c : Char}
    (h : t.data.getLast? = some c) : (a ++ t).data.getLast? = some c := by
  rw [String.data_append, List.getLast?_append, h]
  rfl

/-- Stripping a string that starts and ends with non-whitespace removes
exactly a trailing newline. -/
theorem pyStrip_append_newline (s : String) (c d : Char)
    (h1 : s.data.head? = some c) (hc : c.isWhitespace = false)
    (h2 : s.data.getLast? = some d) (hd : d.isWhitespace = false) :
    pyStrip (s ++ "\n") = s := by
  have hsd : (s ++ "\n").data = s.data ++ ['\n'] := by
    rw [String.data_append]
  unfold pyStrip pyStripL
  rw [hsd]
  have hdrop : (s.data ++ ['\n']).dropWhile Char.isWhitespace = s.data ++ ['\n'] := by
    cases hl : s.data with
    | nil => rw [hl] at h1; simp at h1
    | cons x xs =>
      rw [hl] at h1
      simp only [List.head?_cons, Option.some.injEq] at h1
      subst h1
      simp [List.dropWhile_cons, hc]
  rw [hdrop, List.reverse_append]
  have hrev : List.reverse ['\n'] ++ s.data.reverse = '\n' :: s.data.reverse := rfl
  rw [hrev]
  have hws : ('\n' :: s.data.reverse).dropWhile Char.isWhitespace
      = s.data.reverse.dropWhile Char.isWhitespace := by
    simp [List.dropWhile_cons]
  rw [hws]
  have hdrop2 : s.data.reverse.dropWhile Char.isWhitespace = s.data.reverse := by
    cases hr : s.data.reverse with
    | nil => rfl
    | cons y ys =>
      have : s.data.reverse.head? = some d := by rw [List.head?_reverse]; exact h2
      rw [hr] at this
      simp only [List.head?_cons, Option.some.injEq] at this
      subst this
      simp [List.dropWhile_cons, hd]
  rw [hdrop2, List.reverse_reverse]

theorem strConcat_cons (a : String) (l : List String) :
    strConcat (a :: l) = a ++ strConcat l := rfl

theorem strConcat_append (l1 l2 : List String) :
    strConcat (l1 ++ l2) = strConcat l1 ++ strConcat l2 := by
  induction l1 with
  | nil => simp [strConcat, String.empty_append]
  | cons a l ih => simp [strConcat_cons, ih, String.append_assoc]

/-- A substring of a window of consecutive pieces occurs in the whole
concatenation. -/
theorem strContains_window (pre mid post : List String) {x : String}
    (h : strContains (strConcat mid) x) :
    strContains (strConcat (pre ++ (mid ++ post))) x := by
  rw [strConcat_append, strConcat_append]
  exact strContains_appR _ _ (strContains_appL _ _ h)

theorem promptCore_head (b : Blueprint) : (promptCore b).data.head? = some 'C' := by
  unfold promptCore promptPieces
  rw [strConcat_cons]
  apply head?_data_append_left
  decide

theorem promptCore_last (b : Blueprint) : (promptCore b).data.getLast? = some 's' := by
  have hsplit : promptCore b =
      strConcat [promptP1, titleOf b, promptP2, subtitleOf b, promptP3,
        pyCapitalize (toneOf b), promptP4, pyUpper (creativityOf b), promptP5,
        (creativity_mod b).style, promptP6, (creativity_mod b).metaphors, promptP7,
        (creativity_mod b).restrictions, promptP8, palette_desc b, promptP9,
        (palette_info b).primary, promptP10, (palette_info b).secondary, promptP11,
        (palette_info b).accent, promptP12, (palette_info b).background, promptP13,
        (palette_info b).dark, promptP14, layout_inst b, promptP15,
        compile_sections (sectionsOf b) (creativityOf b)] ++ strConcat [promptP16] := by
    rw [← strConcat_append]
    rfl
  rw [hsplit]
  apply getLast?_data_append_right
  have h16 : (strConcat [promptP16]).data = promptP16.data ++ [] := by
    rw [strConcat_cons, String.data_append]
    rfl
  rw [h16, List.append_nil]
  decide

theorem strConcat_singleton (a : String) : strConcat [a] = a := by
  simp [strConcat]

/-- Lift containment in a window of consecutive prompt pieces to the whole
assembled prompt. -/
theorem promptCore_window (b : Blueprint) (pre mid post : List String) {x : String}
    (heq : pre ++ (mid ++ post) = promptPieces b) (h : strContains (strConcat mid) x) :
    strContains (promptCore b) x := by
  unfold promptCore
  rw [← heq]
  exact strContains_window pre mid post h

/-- The assembled prompt contains the interpolated title verbatim. -/
theorem promptCore_contains_title (b : Blueprint) :
    strContains (promptCore b) (titleOf b) := by
  apply promptCore_window b [promptP1] [titleOf b]
    [promptP2, subtitleOf b, promptP3, pyCapitalize (toneOf b), promptP4,
     pyUpper (creativityOf b), promptP5, (creativity_mod b).style, promptP6,
     (creativity_mod b).metaphors, promptP7, (creativity_mod b).restrictions, promptP8,
     palette_desc b, promptP9, (palette_info b).primary, promptP10,
     (palette_info b).secondary, promptP11, (palette_info b).accent, promptP12,
     (palette_info b).background, promptP13, (palette_info b).dark, promptP14,
     layout_inst b, promptP15, compile_sections (sectionsOf b) (creativityOf b), promptP16]
    rfl
  rw [strConcat_singleton]
  exact strContains_refl _

/-- The assembled prompt contains the interpolated subtitle verbatim. -/
theorem promptCore_contains_subtitle (b : Blueprint) :
    strContains (promptCore b) (subtitleOf b) := by
  apply promptCore_window b [promptP1, titleOf b, promptP2] [subtitleOf b]
    [promptP3, pyCapitalize (toneOf b), promptP4,
     pyUpper (creativityOf b), promptP5, (creativity_mod b).style, promptP6,
     (creativity_mod b).metaphors, promptP7, (creativity_mod b).restrictions, promptP8,
     palette_desc b, promptP9, (palette_info b).primary, promptP10,
     (palette_info b).secondary, promptP11, (palette_info b).accent, promptP12,
     (palette_info b).background, promptP13, (palette_info b).dark, promptP14,
     layout_inst b, promptP15, compile_sections (sectionsOf b) (creativityOf b), promptP16]
    rfl
  rw [strConcat_singleton]
  exact strContains_refl _

/-- The assembled prompt contains the resolved palette description verbatim. -/
theorem promptCore_contains_desc {x : String} (b : Blueprint)
    (h : strContains (palette_desc b) x) :
    strContains (promptCore b) x := by
  apply promptCore_window b
    [promptP1, titleOf b, promptP2, subtitleOf b, promptP3, pyCapitalize (toneOf b),
     promptP4, pyUpper (creativityOf b), promptP5, (creativity_mod b).style, promptP6,
     (creativity_mod b).metaphors, promptP7, (creativity_mod b).restrictions, promptP8]
    [palette_desc b]
    [promptP9, (palette_info b).primary, promptP10,
     (palette_info b).secondary, promptP11, (palette_info b).accent, promptP12,
     (palette_info b).background, promptP13, (palette_info b).dark, promptP14,
     layout_inst b, promptP15, compile_sections (sectionsOf b) (creativityOf b), promptP16]
    rfl
  rw [strConcat_singleton]
  exact h

/-- Containment in the tone line (`- Tone: ...` scaffolding around the
capitalised tone) lifts to the assembled prompt. -/
theorem promptCore_contains_toneLine {x : String} (b : Blueprint)
    (h : strContains (strConcat [promptP3, pyCapitalize (toneOf b), promptP4]) x) :
    strContains (promptCore b) x := by
  apply promptCore_window b [promptP1, titleOf b, promptP2, subtitleOf b]
    [promptP3, pyCapitalize (toneOf b), promptP4]
    [pyUpper (creativityOf b), promptP5, (creativity_mod b).style, promptP6,
     (creativity_mod b).metaphors, promptP7, (creativity_mod b).restrictions, promptP8,
     palette_desc b, promptP9, (palette_info b).primary, promptP10,
     (palette_info b).secondary, promptP11, (palette_info b).accent, promptP12,
     (palette_info b).background, promptP13, (palette_info b).dark, promptP14,
     layout_inst b, promptP15, compile_sections (sectionsOf b) (creativityOf b), promptP16]
    rfl
  exact h

/-- Containment in the restrictions line lifts to the assembled prompt. -/
theorem promptCore_contains_restrictions {x : String} (b : Blueprint)
    (h : strContains (strConcat [promptP7, (creativity_mod b).restrictions]) x) :
    strContains (promptCore b) x := by
  apply promptCore_window b
    [promptP1, titleOf b, promptP2, subtitleOf b, promptP3, pyCapitalize (toneOf b),
     promptP4, pyUpper (creativityOf b), promptP5, (creativity_mod b).style, promptP6,
     (creativity_mod b).metaphors]
    [promptP7, (creativity_mod b).restrictions]
    [promptP8, palette_desc b, promptP9, (palette_info b).primary, promptP10,
     (palette_info b).secondary, promptP11, (palette_info b).accent, promptP12,
     (palette_info b).background, promptP13, (palette_info b).dark, promptP14,
     layout_inst b, promptP15, compile_sections (sectionsOf b) (creativityOf b), promptP16]
    rfl
  exact h

/-- Containment in the five color lines lifts to the assembled prompt. -/
theorem promptCore_contains_colors {x : String} (b : Blueprint)
    (h : strContains (strConcat [promptP9, (palette_info b).primary, promptP10,
      (palette_info b).secondary, promptP11, (palette_info b).accent, promptP12,
      (palette_info b).background, promptP13, (palette_info b).dark]) x) :
    strContains (promptCore b) x := by
  apply promptCore_window b
    [promptP1, titleOf b, promptP2, subtitleOf b, promptP3, pyCapitalize (toneOf b),
     promptP4, pyUpper (creativityOf b), promptP5, (creativity_mod b).style, promptP6,
     (creativity_mod b).metaphors, promptP7, (creativity_mod b).restrictions, promptP8,
     palette_desc b]
    [promptP9, (palette_info b).primary, promptP10,
     (palette_info b).secondary, promptP11, (palette_info b).accent, promptP12,
     (palette_info b).background, promptP13, (palette_info b).dark]
    [promptP14, layout_inst b, promptP15,
     compile_sections (sectionsOf b) (creativityOf b), promptP16]
    rfl
  exact h

/-- On any document whose `sections` value is absent or an array,
`compile_prompt` returns exactly the assembled core (the `.strip()` removes
just the f-string's trailing newline). -/
theorem compile_prompt_eq_core (b : Blueprint) (h : b.sections ≠ some SectionsField.notArr) :
    compile_prompt b = some (promptCore b) := by
  have hstrip : pyStrip (promptCore b ++ "\n") = promptCore b :=
    pyStrip_append_newline _ 'C' 's' (promptCore_head b) (by decide)
      (promptCore_last b) (by decide)
  unfold compile_prompt
  cases hs : b.sections with
  | none => rw [hstrip]
  | some sf =>
    cases sf with
    | arr l => rw [hstrip]
    | notArr => exact absurd hs h

/-! Claim C7. -/

/-- C7: validator checks run in a fixed order and stop at the first failure:
every document missing both `title` and `sections` is rejected with an error
naming `title`, and `{title:"Audit Report", sections:[]}` is rejected with
reason `'sections' must have at least one section`. -/
theorem validator_fixed_order :
    (∀ b : Blueprint, b.title = none → b.sections = none →
      validate_blueprint b = (false, "Missing required field: title")) ∧
    validate_blueprint { title := some "Audit Report", sections := some (SectionsField.arr []) }
      = (false, "'sections' must have at least one section") := by
  constructor
  · intro b h1 _h2
    unfold validate_blueprint
    rw [h1]
    rfl
  · decide

/-- Witness for C7 at the empty document. -/
theorem validator_fixed_order_witness :
    validate_blueprint { } = (false, "Missing required field: title") :=
  validator_fixed_order.1 { } rfl rfl

/-! Claim C6. -/

/-- C6 (amended): a document whose `sections` value is present but not a
sequence (and whose `title` is present) is rejected with the reason string
`'sections' must be an array`. -/
theorem sections_not_sequence_message (b : Blueprint)
    (ht : b.title.isNone = false) (hs : b.sections = some SectionsField.notArr) :
    validate_blueprint b = (false, "'sections' must be an array") := by
  unfold validate_blueprint
  rw [ht, hs]
  rfl

/-- C6 counterexample: the rejection reason is `'sections' must be an array`,
not `'sections' must be a sequence` as claimed. -/
theorem sections_not_sequence_counterexample :
    validate_blueprint exNotArr ≠ (false, "'sections' must be a sequence") ∧
    validate_blueprint exNotArr = (false, "'sections' must be an array") := by
  decide

/-- Witness for C6 at a concrete document. -/
theorem sections_not_sequence_witness :
    validate_blueprint exNotArr = (false, "'sections' must be an array") :=
  sections_not_sequence_message exNotArr (by decide) rfl

/-! Claim C5. -/

/-- C5 counterexample: a document whose section's `heading` is present but
equal to the empty string is accepted, not rejected. -/
theorem empty_heading_accepted :
    (sectionsOf exEmptyHeading).any (fun s => s.heading == some "") = true ∧
    validate_blueprint exEmptyHeading = (true, "") := by
  decide

theorem validateSections_blankHeadings (i : Nat) (l : List BSection) :
    validateSections i (l.map fun s => { s with heading := s.heading.map fun _ => "" }) =
    validateSections i l := by
  induction l generalizing i with
  | nil => rfl
  | cons s rest ih =>
    have hh : (s.heading.map fun _ => "").isNone = s.heading.isNone := by
      cases s.heading <;> rfl
    simp only [List.map_cons, validateSections, hh, ih]

/-- C5 (amended): the validator checks `heading` only for presence, never for
content: blanking every present heading to the empty string changes no
validation outcome, so a present-but-empty heading is accepted. -/
theorem validator_heading_presence_only (b : Blueprint) :
    validate_blueprint (blankHeadings b) = validate_blueprint b := by
  have him : ∀ (f : BSection → BSection) (l : List BSection),
      (l.map f).isEmpty = l.isEmpty := by
    intro f l; cases l <;> rfl
  unfold validate_blueprint blankHeadings
  cases hs : b.sections with
  | none => simp
  | some sf =>
    cases sf with
    | notArr => simp
    | arr l => simp [him, validateSections_blankHeadings]

/-- Witness for C5's amended theorem at a concrete valid document. -/
theorem validator_heading_presence_only_witness :
    validate_blueprint (blankHeadings exTitled) = validate_blueprint exTitled :=
  validator_heading_presence_only exTitled

/-! Claims C1 and C2: counterexamples against the backend renderer. -/

/-- C1 counterexample: the backend `_compile_sections` does not truncate: a
before_after section with 5 `before` items renders the third and the fifth
item, not only the first 2. -/
theorem before_after_no_truncation :
    strContains (compile_sections [exFiveBefore] "subtle") "b-three" ∧
    strContains (compile_sections [exFiveBefore] "subtle") "b-five" := by
  decide

/-- C2 counterexample: the backend `_compile_sections` has no legacy
fallback: an outcome section with `findings` but no `points` renders the
`Key outcomes` placeholder and drops the findings. -/
theorem outcome_no_findings_fallback :
    ¬ strContains (compile_sections [exOutcomeFindings] "subtle") "FINDING-X" ∧
    strContains (compile_sections [exOutcomeFindings] "subtle") "Key outcomes" := by
  decide

theorem take_isEmpty₂ (l : List String) : (l.take 2).isEmpty = l.isEmpty := by
  cases l <;> rfl

theorem take_isEmpty₃ (l : List String) : (l.take 3).isEmpty = l.isEmpty := by
  cases l <;> rfl

theorem sectionText_truncate (i : Nat) (s : BSection) :
    Api.sectionText i (truncateSection s) = Api.sectionText i s := by
  unfold Api.sectionText truncateSection
  cases hb : s.before <;> cases ha : s.after <;> cases hi : s.items <;>
    cases hp : s.points <;> cases hf : s.findings <;> cases hac : s.actions <;>
      simp [List.take_take, take_isEmpty₂, take_isEmpty₃]

theorem sectionsTextFrom_truncate (i : Nat) (l : List BSection) :
    Api.sectionsTextFrom i (l.map truncateSection) = Api.sectionsTextFrom i l := by
  induction l generalizing i with
  | nil => rfl
  | cons s rest ih => simp [Api.sectionsTextFrom, sectionText_truncate, ih]

/-- C1 (amended): the backend `_compile_sections` renders every payload item
(see the counterexample); the truncation policy holds for the inline API
compiler, whose output is unchanged when every section's `before`/`after`
lists are cut to their first 2 items and `items`/`points`/`findings`/`actions`
to their first 3 - items beyond those positions are never rendered. -/
theorem api_compile_truncates (b : Blueprint) :
    Api.compile_prompt (truncateBlueprint b) = Api.compile_prompt b := by
  unfold Api.compile_prompt truncateBlueprint sectionsOf
  cases hs : b.sections with
  | none => simp
  | some sf =>
    cases sf with
    | notArr => simp
    | arr l => simp [sectionsTextFrom_truncate]

/-- Witness for C1's amended theorem at the five-before-items document. -/
theorem api_compile_truncates_witness :
    Api.compile_prompt (truncateBlueprint exFiveBeforeDoc) = Api.compile_prompt exFiveBeforeDoc :=
  api_compile_truncates exFiveBeforeDoc

/-- C2 (amended): in the inline API compiler, a section rendered by the
generic branch (any type other than before_after and recommendations, e.g.
outcome or metric) with `points` absent sources its rendered points from
`findings`, and when that is also absent, from `actions`; the backend
compiler has no such fallback (see the counterexample). -/
theorem api_points_fallback (i : Nat) (s : BSection)
    (h1 : (s.type.getD "outcome" == "before_after") = false)
    (h2 : (s.type.getD "outcome" == "recommendations") = false)
    (hp : s.points = none) :
    (∀ f, s.findings = some f →
      Api.sectionText i s = Api.sectionText i { s with points := some f }) ∧
    (s.findings = none → ∀ a, s.actions = some a →
      Api.sectionText i s = Api.sectionText i { s with points := some a }) := by
  constructor
  · intro f hf
    unfold Api.sectionText
    simp [h1, h2, hp, hf]
  · intro hf a ha
    unfold Api.sectionText
    simp [h1, h2, hp, hf, ha]

/-- Witness for C2's amended theorem: the fallback applied to a concrete
outcome section with findings only. -/
theorem api_points_fallback_witness :
    Api.sectionText 1 exOutcomeFindings =
      Api.sectionText 1 { exOutcomeFindings with points := some ["FINDING-X"] } :=
  (api_points_fallback 1 exOutcomeFindings (by decide) (by decide) rfl).1 ["FINDING-X"] rfl

/-! Claim C3. -/

theorem renderSection_none_eq_moderate (i : Nat) (s : BSection) :
    renderSection "none" i s = renderSection "moderate" i (eraseMetaphor s) := by
  have h1 : (eraseMetaphor s).type = s.type := rfl
  have h2 : (eraseMetaphor s).heading = s.heading := rfl
  have h3 : (eraseMetaphor s).visual_metaphor = none := rfl
  have h4 : (eraseMetaphor s).before = s.before := rfl
  have h5 : (eraseMetaphor s).after = s.after := rfl
  have h6 : (eraseMetaphor s).findings = s.findings := rfl
  have h7 : (eraseMetaphor s).actions = s.actions := rfl
  have h8 : (eraseMetaphor s).items = s.items := rfl
  have h9 : (eraseMetaphor s).points = s.points := rfl
  have h10 : emphasisOf (eraseMetaphor s) = emphasisOf s := rfl
  have h11 : emphasis_instOf (eraseMetaphor s) = emphasis_instOf s := rfl
  unfold renderSection
  simp [h1, h2, h3, h4, h5, h6, h7, h8, h9, h10, h11]

theorem compileSectionsFrom_none_eq (i : Nat) (l : List BSection) :
    compileSectionsFrom "none" i l = compileSectionsFrom "moderate" i (l.map eraseMetaphor) := by
  induction l generalizing i with
  | nil => rfl
  | cons s rest ih =>
    simp only [List.map_cons, compileSectionsFrom, renderSection_none_eq_moderate, ih]

/-- C3 (amended): within the section renderings, `creativity=none` differs
from `creativity=moderate` exactly by suppression of the visual-metaphor
phrases: compiling sections with `none` is byte-identical to compiling the
metaphor-stripped sections with `moderate`.  The full outputs additionally
differ in the STYLE & TONE block's creativity, style, metaphor-guideline and
restriction lines (see the counterexample). -/
theorem metaphor_suppression_sections (sections : List BSection) :
    compile_sections sections "none" =
      compile_sections (sections.map eraseMetaphor) "moderate" := by
  unfold compile_sections
  rw [compileSectionsFrom_none_eq]

/-- Witness for C3's amended theorem at a metaphor-carrying section. -/
theorem metaphor_suppression_sections_witness :
    compile_sections [exMetaphorSection] "none" =
      compile_sections ([exMetaphorSection].map eraseMetaphor) "moderate" :=
  metaphor_suppression_sections [exMetaphorSection]

/-- C3 counterexample: on a blueprint with no visual metaphors at all, the
`none` and `moderate` outputs still differ - in the Restrictions line of the
STYLE & TONE block, which is not a visual-metaphor phrase; the section
renderings of the two outputs are byte-identical and contain no `Visual
Metaphor` text, so the difference lies outside any metaphor phrase. -/
theorem creativity_blocks_differ :
    compile_prompt exCreativityNone ≠ compile_prompt exCreativityModerate ∧
    strContains ((compile_prompt exCreativityNone).getD "")
      "- Restrictions: Strictly informational. No artistic flourishes." ∧
    strContains ((compile_prompt exCreativityModerate).getD "")
      "- Restrictions: Balance creativity with professionalism. Metaphors should enhance, not obscure meaning." ∧
    compile_sections (sectionsOf exCreativityNone) "none"
      = compile_sections (sectionsOf exCreativityModerate) "moderate" ∧
    ¬ strContains (compile_sections (sectionsOf exCreativityNone) "none") "Visual Metaphor" := by
  refine ⟨by decide, ?_, ?_, by decide, by decide⟩
  · rw [compile_prompt_eq_core exCreativityNone (by decide)]
    exact promptCore_contains_restrictions exCreativityNone (by decide)
  · rw [compile_prompt_eq_core exCreativityModerate (by decide)]
    exact promptCore_contains_restrictions exCreativityModerate (by decide)

/-! Claim C4. -/

theorem validate_accepted_sections_arr (b : Blueprint)
    (hv : (validate_blueprint b).1 = true) :
    b.sections ≠ some SectionsField.notArr := by
  intro hs
  unfold validate_blueprint at hv
  rw [hs] at hv
  cases ht : b.title.isNone <;> simp [ht] at hv

/-- C4: for every blueprint document accepted by validate_blueprint,
compile_prompt raises no error and returns a non-empty string containing the
literal title value and the literal subtitle value. -/
theorem compile_totality (b : Blueprint) (t : String)
    (hv : (validate_blueprint b).1 = true) (ht : b.title = some t) :
    ∃ out, compile_prompt b = some out ∧ out ≠ "" ∧ strContains out t ∧
      ∀ st, b.subtitle = some st → strContains out st := by
  have hna : b.sections ≠ some SectionsField.notArr := validate_accepted_sections_arr b hv
  refine ⟨promptCore b, compile_prompt_eq_core b hna, ?_, ?_, ?_⟩
  · intro h0
    have hh := promptCore_head b
    rw [h0] at hh
    simp at hh
  · have hc := promptCore_contains_title b
    unfold titleOf at hc
    rw [ht] at hc
    simpa using hc
  · intro st hst
    have hc := promptCore_contains_subtitle b
    unfold subtitleOf at hc
    rw [hst] at hc
    simpa using hc

/-- Witness for C4 at a concrete accepted blueprint. -/
theorem compile_totality_witness :
    (validate_blueprint exTitled).1 = true ∧
    (∃ out, compile_prompt exTitled = some out ∧ out ≠ "" ∧
      strContains out "Network Overhaul" ∧ strContains out "From Chaos") := by
  have h := compile_totality exTitled "Network Overhaul" (by decide) rfl
  obtain ⟨out, h1, h2, h3, h4⟩ := h
  exact ⟨by decide, out, h1, h2, h3, h4 "From Chaos" rfl⟩

/-! Claim C8. -/

theorem strContains_pyJoin_of_mem (sep : String) {c : String} :
    ∀ (cs : List String), c ∈ cs → strContains (pyJoin sep cs) c
  | [], h => absurd h (List.not_mem_nil c)
  | a :: rest, h => by
    rcases List.mem_cons.mp h with rfl | hmem
    · cases rest with
      | nil => exact strContains_refl _
      | cons b t =>
        exact strContains_appL _ _ (strContains_appL _ _ (strContains_refl _))
    · cases rest with
      | nil => exact absurd hmem (List.not_mem_nil c)
      | cons b t =>
        exact strContains_appR _ _ (strContains_pyJoin_of_mem sep (b :: t) hmem)

/-- C8 (amended): with palette custom and a non-empty custom_colors list, the
palette description is the custom synthesis `Custom palette: <joined colors>`
- it contains every color string, never equals the teal description (so no
fallback happens), and every color occurs in the compiled output; however a
color string may itself embed the teal description text (see the
counterexample), so "does not contain" holds only as "is not the fallback".
With custom_colors absent or empty, the description falls back to the teal
definition's description. -/
theorem custom_palette_description (b : Blueprint) (h : b.palette = some "custom") :
    (∀ cs, b.custom_colors = some cs → cs ≠ [] →
      palette_desc b = "Custom palette: " ++ pyJoin ", " cs ∧
      palette_desc b ≠ tealPalette.description ∧
      (b.sections ≠ some SectionsField.notArr →
        ∃ out, compile_prompt b = some out ∧ ∀ c ∈ cs, strContains out c)) ∧
    (truthyL b.custom_colors = false → palette_desc b = tealPalette.description) := by
  have hp : paletteOf b = "custom" := by unfold paletteOf; rw [h]; rfl
  constructor
  · intro cs hcs hne
    have htr : truthyL b.custom_colors = true := by
      rw [hcs]
      unfold truthyL
      simp [hne]
    have hdesc : palette_desc b = "Custom palette: " ++ pyJoin ", " cs := by
      unfold palette_desc
      rw [hp, htr, hcs]
      simp
    refine ⟨hdesc, ?_, ?_⟩
    · rw [hdesc]
      intro heq
      have h1 : ("Custom palette: " ++ pyJoin ", " cs).data.head? = some 'C' := by
        apply head?_data_append_left
        decide
      rw [heq] at h1
      exact absurd h1 (by decide)
    · intro hna
      refine ⟨promptCore b, compile_prompt_eq_core b hna, ?_⟩
      intro c hc
      apply promptCore_contains_desc b
      rw [hdesc]
      exact strContains_appR _ _ (strContains_pyJoin_of_mem ", " cs hc)
  · intro hfalse
    have hnone : PALETTE_DEFINITIONS "custom" = none := by decide
    unfold palette_desc palette_info
    rw [hp, hfalse, hnone]
    simp

/-- Witness for C8's amended theorem at `custom_colors = ["#111", "#222"]`. -/
theorem custom_palette_description_witness :
    palette_desc exCustom = "Custom palette: " ++ pyJoin ", " ["#111", "#222"] ∧
    strContains ((compile_prompt exCustom).getD "") "#111" ∧
    strContains ((compile_prompt exCustom).getD "") "#222" := by
  have h := (custom_palette_description exCustom rfl).1 ["#111", "#222"] rfl (by decide)
  obtain ⟨h1, _h2, h3⟩ := h
  obtain ⟨out, ho, hc⟩ := h3 (by decide)
  rw [ho]
  exact ⟨h1, hc "#111" (by decide), hc "#222" (by decide)⟩

/-- C8 counterexample: a custom color that embeds the teal description text
makes the palette description (and hence the compiled output) contain the
teal palette description, refuting the claim's "does not contain". -/
theorem custom_desc_contains_teal :
    strContains (palette_desc exCustomAdv) tealPalette.description ∧
    (∃ out, compile_prompt exCustomAdv = some out ∧
      strContains out tealPalette.description) := by
  refine ⟨by decide, promptCore exCustomAdv, compile_prompt_eq_core _ (by decide), ?_⟩
  exact promptCore_contains_desc _ (by decide)

/-! Claim C10. -/

/-- C10: with palette custom, palette_info resolves to the teal definition
(the `"custom"` key has no entry in PALETTE_DEFINITIONS, so `.get` falls back
to teal), and the five named color lines of the compiled output carry the
teal definition's color values; only the palette description line reflects
custom_colors. -/
theorem custom_palette_color_lines (b : Blueprint) (h : b.palette = some "custom") :
    palette_info b = tealPalette ∧
    (b.sections ≠ some SectionsField.notArr →
      ∃ out, compile_prompt b = some out ∧
        strContains out "- Primary Color: #0d9488" ∧
        strContains out "- Secondary Color: #14b8a6" ∧
        strContains out "- Accent Color: #2dd4bf" ∧
        strContains out "- Background: #f0fdfa" ∧
        strContains out "- Dark/Text Color: #134e4a") := by
  have hp : paletteOf b = "custom" := by unfold paletteOf; rw [h]; rfl
  have hpi : palette_info b = tealPalette := by
    have hnone : PALETTE_DEFINITIONS "custom" = none := by decide
    unfold palette_info
    rw [hp, hnone]
    rfl
  refine ⟨hpi, fun hna => ⟨promptCore b, compile_prompt_eq_core b hna, ?_, ?_, ?_, ?_, ?_⟩⟩
  all_goals
    apply promptCore_contains_colors b
    rw [hpi]
    decide

/-- Witness for C10 at a concrete custom-palette blueprint. -/
theorem custom_palette_color_lines_witness :
    ∃ out, compile_prompt exCustomNoColors = some out ∧
      strContains out "- Primary Color: #0d9488" ∧
      strContains out "- Secondary Color: #14b8a6" ∧
      strContains out "- Accent Color: #2dd4bf" ∧
      strContains out "- Background: #f0fdfa" ∧
      strContains out "- Dark/Text Color: #134e4a" :=
  (custom_palette_color_lines exCustomNoColors rfl).2 (by decide)

/-! Claim C9. -/

theorem truthyS_clearEmpty (o : Option String) : truthyS (clearEmpty o) = truthyS o := by
  cases o with
  | none => rfl
  | some s =>
    unfold clearEmpty truthyS
    by_cases hs : (s == "") = true
    · simp [hs]
    · simp [hs]

theorem enumCheck_clearEmpty (f : String) (v : Option String) (a : List String)
    (next : Bool × String) :
    enumCheck f (clearEmpty v) a next = enumCheck f v a next := by
  cases v with
  | none => rfl
  | some s =>
    unfold clearEmpty enumCheck truthyS
    by_cases hs : (s == "") = true
    · simp [hs]
    · simp [hs]

theorem clearEmpty_some_eq (e : String) (h : (e == "") = true) :
    clearEmpty (some e) = none := by
  unfold clearEmpty
  simp [h]

theorem clearEmpty_some_ne (e : String) (h : (e == "") = false) :
    clearEmpty (some e) = some e := by
  unfold clearEmpty
  simp [h]

theorem validateSections_clearEmpty (i : Nat) (l : List BSection) :
    validateSections i (l.map fun s => { s with emphasis := clearEmpty s.emphasis }) =
    validateSections i l := by
  induction l generalizing i with
  | nil => rfl
  | cons s rest ih =>
    have hcn : clearEmpty none = none := rfl
    simp only [List.map_cons, validateSections]
    cases he : s.emphasis with
    | none =>
      simp [hcn, truthyS, ih]
    | some e =>
      by_cases hs : (e == "") = true
      · simp [clearEmpty_some_eq e hs, truthyS, hs, ih]
      · have hs' : (e == "") = false := by simpa using hs
        simp [clearEmpty_some_ne e hs', truthyS, ih]

theorem clearEmptyEnums_validate (b : Blueprint) :
    validate_blueprint (clearEmptyEnums b) = validate_blueprint b := by
  obtain ⟨t, st, su, tn, cr, la, pa, cc, se⟩ := b
  unfold clearEmptyEnums validate_blueprint
  cases se with
  | none => rfl
  | some sf =>
    cases sf with
    | notArr => rfl
    | arr l =>
      have him : (List.map (fun s => { s with emphasis := clearEmpty s.emphasis }) l).isEmpty
          = l.isEmpty := by cases l <;> rfl
      simp only [Option.map_some', Option.isNone_some, him, enumCheck_clearEmpty,
        validateSections_clearEmpty]

/-- C9 (amended): the enum-membership checks are skipped for falsy values, so
a present-but-empty layout, creativity, palette, tone or emphasis passes
validation unchanged; the compiler then substitutes the table defaults for
layout (before_after_with_recommendations instructions), creativity (subtle)
and palette (teal, including its description), and the medium emphasis
instruction - but tone has no table: the empty tone is capitalised to the
empty string and rendered literally, and the empty emphasis label is likewise
rendered as the empty string beside the defaulted instruction. -/
theorem empty_enum_defaults (b : Blueprint) (s : BSection) :
    validate_blueprint (clearEmptyEnums b) = validate_blueprint b ∧
    (b.layout = some "" → layout_inst b = layoutBeforeAfterRecs) ∧
    (b.creativity = some "" → creativity_mod b = creativitySubtle) ∧
    (b.palette = some "" →
      palette_info b = tealPalette ∧ palette_desc b = tealPalette.description) ∧
    (b.tone = some "" → pyCapitalize (toneOf b) = "") ∧
    (s.emphasis = some "" → emphasisOf s = "" ∧ emphasis_instOf s = emphasisMedium) := by
  refine ⟨clearEmptyEnums_validate b, ?_, ?_, ?_, ?_, ?_⟩
  · intro h
    unfold layout_inst layoutOf
    rw [h]
    rfl
  · intro h
    unfold creativity_mod creativityOf
    rw [h]
    rfl
  · intro h
    have hp : paletteOf b = "" := by unfold paletteOf; rw [h]; rfl
    constructor
    · unfold palette_info
      rw [hp]
      rfl
    · unfold palette_desc palette_info
      rw [hp]
      rfl
  · intro h
    unfold toneOf
    rw [h]
    rfl
  · intro h
    unfold emphasis_instOf emphasisOf
    rw [h]
    exact ⟨rfl, rfl⟩

/-- Witness for C9's amended theorem at concrete empty-string fields. -/
theorem empty_enum_defaults_witness :
    validate_blueprint (clearEmptyEnums exEmptyTone) = validate_blueprint exEmptyTone ∧
    pyCapitalize (toneOf exEmptyTone) = "" ∧
    emphasisOf { exOutcomeSection with emphasis := some "" } = "" ∧
    emphasis_instOf { exOutcomeSection with emphasis := some "" } = emphasisMedium := by
  have h := empty_enum_defaults exEmptyTone { exOutcomeSection with emphasis := some "" }
  exact ⟨h.1, h.2.2.2.2.1 rfl, (h.2.2.2.2.2 rfl).1, (h.2.2.2.2.2 rfl).2⟩

/-- C9 counterexample: the validator accepts a document with `tone` present
but empty, yet the compiler does not substitute the default `professional`
for it - the tone renders as the empty string, leaving a double space in the
Tone line of the output. -/
theorem empty_tone_not_defaulted :
    validate_blueprint exEmptyTone = (true, "") ∧
    pyCapitalize (toneOf exEmptyTone) = "" ∧
    (∃ out, compile_prompt exEmptyTone = some out ∧
      strContains out "- Tone:  consulting/business infographic") := by
  refine ⟨by decide, by decide, promptCore exEmptyTone,
    compile_prompt_eq_core _ (by decide), ?_⟩
  apply promptCore_contains_toneLine
  decide

end InfoAI
